import Mathlib

/-!
Verification of the Dixon-Coles parameter-estimation notebook from the
england-korfball-league-predictions repository.

The notebook defines three pieces of executable code: `rho_correction`
(the Dixon-Coles low-score correction factor tau), `dc_log_like` (the
per-match log-likelihood, building expected rates via exponentials), and
`solve_parameters` (dataset validation, objective construction, a call to
an external numerical minimizer, and packaging of the result).

Modelling conventions:
- Python floats are modelled by real numbers.  A value that is NaN or an
  infinity (as produced by `np.log` on a non-positive argument) is not a
  real number and is modelled by `none` in an `Option Real`.
- A raised Python exception is modelled by the error side of
  `Except String a`, carrying the exception text.  Exceptions and NaN
  values behave differently at the solver boundary (an exception
  propagates out of `scipy.optimize.minimize`; a NaN objective value does
  not), so the objective type is `Except String (Option Real)`.
- The source objective iterates `for row in dataset.itertuples()` and
  then evaluates `row` indexed with the string keys Home Score,
  Away Score, Home Team and Away Team.  Pandas `itertuples` yields
  (named)tuples, and indexing a tuple with a string raises
  `TypeError: tuple indices must be integers or slices, not str`, whatever
  the row holds; the model makes every such access fail with that message.
  Consequently the likelihood arithmetic after those accesses is dead code
  on every row, though it is still modelled operation by operation.
- The statement `rho, gamma = params[-2:]` raises a ValueError when the
  parameter vector has fewer than two entries; the model guards on the
  length accordingly before the per-row loop, as the source unpacks
  before building the comprehension.
- Scores are integers (`Int`), so that datasets containing negative
  scores can be expressed; the source never validates scores.
- The external minimizer `scipy.optimize.minimize` is not part of the
  repository.  It evaluates the objective at the initial vector while
  setting up, and an exception raised there propagates out of the call;
  the raising behaviour of this objective depends only on the dataset
  and the vector length, which the initial vector fixes for the whole
  search, so the model evaluates the objective once at the initial
  vector and only on success consults the abstract `minimize` argument,
  an `OptResult`-producing function (scipy OptimizeResult fields used by
  the notebook: `x`, `success`, `nit`, `fun`; the last is renamed `fval`
  since `fun` is reserved).  The random initialisation branch of the
  source is likewise external state (NumPy global RNG), so the initial
  vector is an explicit argument.
-/

/-- A row of the match dataset: home team, home score, away team, away
score, mirroring the columns the notebook selects from the CSV. -/
structure MatchRow where
  homeTeam : String
  homeScore : Int
  awayTeam : String
  awayScore : Int
deriving DecidableEq, Repr

/-- Embedding of the source function `rho_correction(x, y, lambda_x, mu_y, rho)`:
the if/elif chain returning the Dixon-Coles tau correction. -/
def rho_correction (x y : Int) (lambda_x mu_y rho : ℝ) : ℝ :=
  if x = 0 ∧ y = 0 then 1 - lambda_x * mu_y * rho
  else if x = 0 ∧ y = 1 then 1 + lambda_x * rho
  else if x = 1 ∧ y = 0 then 1 + mu_y * rho
  else if x = 1 ∧ y = 1 then 1 - rho
  else 1

/-- Spec-side definition of tau, written from the piecewise table in the
specification (section 4.1): a match on the non-negative integer score
pair with the four low-score cases and a catch-all of exactly 1. -/
def tau_spec (x y : ℕ) (lam mu rho : ℝ) : ℝ :=
  match x, y with
  | 0, 0 => 1 - lam * mu * rho
  | 0, 1 => 1 + lam * rho
  | 1, 0 => 1 + mu * rho
  | 1, 1 => 1 - rho
  | _, _ => 1

/-- Expected home-goal rate from the source line
`lambda_x, mu_y = np.exp(alpha_x + beta_y + gamma), np.exp(alpha_y + beta_x)`
inside `dc_log_like`: the home rate is the exponential of home attack plus
away defence plus the home-advantage term. -/
noncomputable def lambda_rate (alpha_x beta_y gamma : ℝ) : ℝ :=
  Real.exp (alpha_x + beta_y + gamma)

/-- Expected away-goal rate from the same source line: the exponential of
away attack plus home defence. -/
noncomputable def mu_rate (alpha_y beta_x : ℝ) : ℝ :=
  Real.exp (alpha_y + beta_x)

/-- Model of `np.log` restricted to outcomes that are real numbers: on a
positive argument it is the real logarithm; on zero the source produces
negative infinity and on a negative argument NaN, neither of which is a
real number, so both are modelled as `none`. -/
noncomputable def nplog (r : ℝ) : Option ℝ :=
  if 0 < r then some (Real.log r) else none

/-- Model of `scipy.stats.poisson.pmf(k, lam)` at integer `k`: the Poisson
probability mass exp(-lam) * lam^k / k! for k >= 0, and 0 for negative k
(scipy returns 0.0 outside the support). -/
noncomputable def poisson_pmf (k : Int) (lam : ℝ) : ℝ :=
  if 0 ≤ k then Real.exp (-lam) * lam ^ k.toNat / (Nat.factorial k.toNat) else 0

/-- Embedding of the module-level source function
`dc_log_like(x, y, alpha_x, beta_x, alpha_y, beta_y, rho, gamma)` (the
cell directly above `solve_parameters`, repeated verbatim inside it):
compute the two expected rates and return the sum of the logs of the tau
correction and the two Poisson masses; `none` when any log has no real
value. -/
noncomputable def dc_log_like (x y : Int)
    (alpha_x beta_x alpha_y beta_y rho gamma : ℝ) : Option ℝ := do
  let lambda_x := lambda_rate alpha_x beta_y gamma
  let mu_y := mu_rate alpha_y beta_x
  let t1 ← nplog (rho_correction x y lambda_x mu_y rho)
  let t2 ← nplog (poisson_pmf x lambda_x)
  let t3 ← nplog (poisson_pmf y mu_y)
  pure (t1 + t2 + t3)

/-- The message of the TypeError Python raises when a tuple is indexed
with a string key, as every `row[...]` in the source objective is. -/
def typeErrorMsg : String :=
  "TypeError: tuple indices must be integers or slices, not str"

/-- The message of the ValueError Python raises when `rho, gamma =
params[-2:]` unpacks a vector with fewer than two entries. -/
def unpackErrorMsg : String := "ValueError: not enough values to unpack"

/-- Model of the expressions `row[...]` at the score columns inside the
source objective: `dataset.itertuples()` yields (named)tuples, and tuple
indexing accepts only integers, so a string key raises TypeError no
matter what the row contains. -/
def rowStrIndexInt (m : MatchRow) (key : String) : Except String Int :=
  Except.error typeErrorMsg

/-- Model of the expressions `row[...]` at the team-name columns: the
same string indexing of an itertuples row, the same TypeError. -/
def rowStrIndexStr (m : MatchRow) (key : String) : Except String String :=
  Except.error typeErrorMsg

/-- Model of a Python dictionary lookup `d[k]`: the value when the key is
present, KeyError otherwise. -/
def dictGet (d : List (String × ℝ)) (k : String) : Except String ℝ :=
  match d.lookup k with
  | some v => Except.ok v
  | none => Except.error "KeyError"

/-- One element of the `log_like` list comprehension inside the source
`estimate_parameters`: Python evaluates the arguments of the
`dc_log_like` call left to right, beginning with the row indexed at
Home Score, so the TypeError from string-indexing the itertuples row is
raised before any likelihood arithmetic on every row; the accesses and
dictionary lookups that would follow are modelled in source order all the
same.  On success the carried value is an `Option`: `some r` for a real
result, `none` for the NaN or infinity that `np.log` would produce on a
non-positive argument. -/
noncomputable def match_loglike (score_coefs defend_coefs : List (String × ℝ))
    (rho gamma : ℝ) (m : MatchRow) : Except String (Option ℝ) := do
  let x ← rowStrIndexInt m "Home Score"
  let y ← rowStrIndexInt m "Away Score"
  let hteam ← rowStrIndexStr m "Home Team"
  let alpha_x ← dictGet score_coefs hteam
  let beta_x ← dictGet defend_coefs hteam
  let ateam ← rowStrIndexStr m "Away Team"
  let alpha_y ← dictGet score_coefs ateam
  let beta_y ← dictGet defend_coefs ateam
  Except.ok (dc_log_like x y alpha_x beta_x alpha_y beta_y rho gamma)

/-- Evaluation of the comprehension and of `sum(log_like)`: rows are
evaluated left to right, so the first raising row aborts the whole
objective evaluation; when every row returns, the sum is NaN (`none`)
as soon as any term is. -/
noncomputable def sum_loglikes (f : MatchRow → Except String (Option ℝ)) :
    List MatchRow → Except String (Option ℝ)
  | [] => Except.ok (some 0)
  | m :: ms => do
      let v ← f m
      let rest ← sum_loglikes f ms
      Except.ok (do
        let a ← v
        let b ← rest
        pure (a + b))

/-- Embedding of the inner source function `estimate_parameters(params)`:
`score_coefs = dict(zip(teams, params[:n_teams]))`,
`defend_coefs = dict(zip(teams, params[n_teams:2*n_teams]))` (neither can
raise), then `rho, gamma = params[-2:]` (ValueError on vectors shorter
than two), then the negated sum of the per-match terms — which, per
`match_loglike`, raises TypeError at the first row of any non-empty
dataset. -/
noncomputable def estimate_parameters (teams : List String)
    (dataset : List MatchRow) (params : List ℝ) : Except String (Option ℝ) :=
  if params.length < 2 then Except.error unpackErrorMsg
  else
    (sum_loglikes (match_loglike
        (teams.zip (params.take teams.length))
        (teams.zip ((params.drop teams.length).take teams.length))
        (params.getD (params.length - 2) 0)
        (params.getD (params.length - 1) 0)) dataset).map
      (fun s => s.map (fun r => -r))

/-- Modelled from the spec: the notebook title promises a time-weighting
extension but no time-decay code appears in any code cell of the source,
so the weight function of section 4.6 is taken from the spec text:
weight = exp(-xi * elapsed_days) for decay rate xi and a non-negative
number of days between the match date and the reference date. -/
noncomputable def time_weight (xi elapsed_days : ℝ) : ℝ :=
  Real.exp (-xi * elapsed_days)

/-- Model of `np.sort(dataset[col].unique())` in `solve_parameters`: the
distinct values of a column, sorted ascending.  `List.dedup` gives the
distinct values; insertion sort orders them (the numeric result of any
correct ascending sort is the same canonical list). -/
def uniqueSorted (l : List String) : List String :=
  (l.dedup).insertionSort (· ≤ ·)

/-- The fields of the scipy `OptimizeResult` that the notebook consumes:
the solution vector `x`, the `success` flag, the iteration count `nit`
and the final objective value (scipy field name `fun`, reserved in Lean,
hence `fval`). -/
structure OptResult where
  x : List ℝ
  success : Bool
  nit : ℕ
  fval : ℝ

/-- The two possible shapes of a `solve_parameters` return: the raw
optimizer result when `debug=True`, or the name-to-value pairing when
`debug=False`. -/
inductive SolveReturn where
  | debugOut (r : OptResult)
  | paramMap (m : List (String × ℝ))

/-- The key list of the non-debug result dictionary built in the source:
`["attack_"+team for team in teams] + ["defence_"+team for team in teams]
+ [rho, home_adv]`. -/
def result_names (teams : List String) : List String :=
  teams.map (fun t => "attack_" ++ t) ++ teams.map (fun t => "defence_" ++ t)
    ++ ["rho", "home_adv"]

/-- Embedding of the source function `solve_parameters(dataset, debug,
init_vals, ...)`: sort the distinct home and away team names, raise
`ValueError` when the two sorted arrays differ (the source message text is
a short English sentence), otherwise call `scipy.optimize.minimize` on
the `estimate_parameters` objective from the given initial vector and
package the result.  Per the modelling note at the top of the file, the
minimize call first evaluates the objective at the initial vector and an
exception raised there propagates out; only when that evaluation returns
is the abstract `minimize` argument consulted for the numeric search
result.  The randomly initialised default for `init_vals` (external
NumPy RNG state) is supplied by the caller. -/
noncomputable def solve_parameters (dataset : List MatchRow)
    (minimize : (List ℝ → Except String (Option ℝ)) → List ℝ → OptResult)
    (init_vals : List ℝ) (debug : Bool) : Except String SolveReturn :=
  let teams := uniqueSorted (dataset.map (fun m => m.homeTeam))
  let away_teams := uniqueSorted (dataset.map (fun m => m.awayTeam))
  if teams ≠ away_teams then
    Except.error "Somethings not right"
  else
    match estimate_parameters teams dataset init_vals with
    | Except.error e => Except.error e
    | Except.ok _ =>
        let opt_output := minimize (estimate_parameters teams dataset) init_vals
        if debug then Except.ok (SolveReturn.debugOut opt_output)
        else Except.ok
          (SolveReturn.paramMap ((result_names teams).zip opt_output.x))

/-- The default equality constraint handed to the minimizer by
`solve_parameters`: `lambda x: sum(x[:20]) - 20`, with the slice bound 20
written as a literal in the source. -/
def default_constraint (x : List ℝ) : ℝ := (x.take 20).sum - 20

/-- The sum of the attack block (the first n entries) of a parameter
vector for an n-team roster: the quantity the claimed normalization
constraint fixes at n. -/
def attack_sum (n : ℕ) (x : List ℝ) : ℝ := (x.take n).sum

/-- Concrete one-team, one-match dataset used in the closed evaluation
theorems (both roster columns are the single name A, so validation
passes by construction). -/
def oneTeamDataset (hs as : Int) : List MatchRow :=
  [{ homeTeam := "A", homeScore := hs, awayTeam := "A", awayScore := as }]

/-- Concrete stand-in for the external minimizer in the closed evaluation
theorems: ignores the objective and echoes the initial vector back with
the given convergence report. -/
def constMinimizer (s : Bool) (n : ℕ) (f : ℝ) :
    (List ℝ → Except String (Option ℝ)) → List ℝ → OptResult :=
  fun _ iv => { x := iv, success := s, nit := n, fval := f }

/-- Sorting the empty column gives the empty roster. -/
theorem uniqueSorted_nil : uniqueSorted [] = [] := rfl

/-- Objective evaluation on the empty dataset: the comprehension is
empty, the sum is 0 and its negation is returned, for any team list and
any parameter vector long enough to unpack rho and gamma. -/
theorem estimate_parameters_nil (teams : List String) (params : List ℝ)
    (h : 2 ≤ params.length) :
    estimate_parameters teams [] params = Except.ok (some 0) := by
  unfold estimate_parameters
  rw [if_neg (by omega)]
  show Except.ok ((some (0 : ℝ)).map (fun r => -r)) = Except.ok (some 0)
  simp

/-- Objective evaluation on any non-empty dataset: the first row already
raises TypeError at the string-indexed score access, before any
likelihood arithmetic, for every team list and every parameter vector
long enough to unpack rho and gamma. -/
theorem estimate_parameters_cons (teams : List String) (params : List ℝ)
    (m : MatchRow) (ms : List MatchRow) (h : 2 ≤ params.length) :
    estimate_parameters teams (m :: ms) params = Except.error typeErrorMsg := by
  unfold estimate_parameters
  rw [if_neg (by omega)]
  rfl

/-- C1: the score-correction function tau, for every non-negative integer
pair (x, y), every positive real lambda and mu, and every real rho,
returns exactly the piecewise value demanded by the spec: 1 - lambda*mu*rho
at (0,0); 1 + lambda*rho at (0,1); 1 + mu*rho at (1,0); 1 - rho at (1,1);
and exactly 1 for every other pair. -/
theorem rho_correction_eq_tau_spec (x y : ℕ) (lam mu rho : ℝ)
    (hlam : 0 < lam) (hmu : 0 < mu) :
    rho_correction (x : Int) (y : Int) lam mu rho = tau_spec x y lam mu rho := by
  match x, y with
  | 0, 0 => simp [rho_correction, tau_spec]
  | 0, 1 => simp [rho_correction, tau_spec]
  | 1, 0 => simp [rho_correction, tau_spec]
  | 1, 1 => simp [rho_correction, tau_spec]
  | 0, (n+2) =>
      have h1 : ((n : Int) + 2) ≠ 0 := by omega
      have h2 : ((n : Int) + 2) ≠ 1 := by omega
      simp [rho_correction, tau_spec, h1, h2]
  | 1, (n+2) =>
      have h1 : ((n : Int) + 2) ≠ 0 := by omega
      have h2 : ((n : Int) + 2) ≠ 1 := by omega
      simp [rho_correction, tau_spec, h1, h2]
  | (m+2), 0 =>
      have h1 : ((m : Int) + 2) ≠ 0 := by omega
      have h2 : ((m : Int) + 2) ≠ 1 := by omega
      simp [rho_correction, tau_spec, h1, h2]
  | (m+2), 1 =>
      have h1 : ((m : Int) + 2) ≠ 0 := by omega
      have h2 : ((m : Int) + 2) ≠ 1 := by omega
      simp [rho_correction, tau_spec, h1, h2]
  | (m+2), (n+2) =>
      have h1 : ((m : Int) + 2) ≠ 0 := by omega
      have h2 : ((m : Int) + 2) ≠ 1 := by omega
      simp [rho_correction, tau_spec, h1, h2]

/-- Witness for C1 at the concrete input x = 2, y = 3, lam = 1, mu = 2,
rho = 5, with both positivity hypotheses discharged; both sides
evaluate to 1. -/
theorem rho_correction_eq_tau_spec_witness :
    (0 : ℝ) < 1 ∧ (0 : ℝ) < 2 ∧
      rho_correction (2 : Int) (3 : Int) 1 2 5 = tau_spec 2 3 1 2 5 ∧
      tau_spec 2 3 1 2 5 = 1 :=
  ⟨by norm_num, by norm_num,
    rho_correction_eq_tau_spec 2 3 1 2 5 (by norm_num) (by norm_num),
    by simp [tau_spec]⟩

/-- C7: for every finite real-valued attack, defence and gamma parameters,
the expected rates lambda = exp(alpha_home + beta_away + gamma) and
mu = exp(alpha_away + beta_home) computed by the per-match likelihood are
strictly positive. -/
theorem rates_pos (alpha_x beta_x alpha_y beta_y gamma : ℝ) :
    0 < lambda_rate alpha_x beta_y gamma ∧ 0 < mu_rate alpha_y beta_x :=
  ⟨Real.exp_pos _, Real.exp_pos _⟩

/-- C9: the time-decay weight equals exp(-xi * elapsed_days); with xi = 0
every weight is 1 regardless of date; for every xi > 0 the weight is
strictly decreasing in elapsed_days; and the weight at elapsed_days = 0
is 1. -/
theorem time_weight_spec :
    (∀ d : ℝ, time_weight 0 d = 1) ∧
    (∀ xi d1 d2 : ℝ, 0 < xi → 0 ≤ d1 → d1 < d2 →
      time_weight xi d2 < time_weight xi d1) ∧
    (∀ xi : ℝ, time_weight xi 0 = 1) := by
  refine ⟨fun d => ?_, fun xi d1 d2 hxi _ hd => ?_, fun xi => ?_⟩
  · simp [time_weight]
  · have : -xi * d2 < -xi * d1 := by nlinarith
    exact Real.exp_lt_exp.mpr this
  · simp [time_weight]

/-- Witness for C9: instantiating the strict-decrease clause at xi = 1,
d1 = 0, d2 = 1, with the three hypotheses discharged concretely. -/
theorem time_weight_spec_witness :
    (0 : ℝ) < 1 ∧ (0 : ℝ) ≤ 0 ∧ (0 : ℝ) < 1 ∧ time_weight 1 1 < time_weight 1 0 :=
  ⟨by norm_num, le_refl 0, by norm_num,
    time_weight_spec.2.1 1 0 1 (by norm_num) (le_refl 0) (by norm_num)⟩

/-- Sorting the distinct values of two columns is a canonical form: the two
sorted duplicate-free lists the source compares are equal exactly when the
two columns have the same set of distinct names. -/
theorem uniqueSorted_eq_iff (l1 l2 : List String) :
    uniqueSorted l1 = uniqueSorted l2 ↔ l1.toFinset = l2.toFinset := by
  rw [List.toFinset_eq_iff_perm_dedup]
  unfold uniqueSorted
  constructor
  · intro h
    have p1 : l1.dedup.Perm ((l1.dedup).insertionSort (· ≤ ·)) :=
      (List.perm_insertionSort _ _).symm
    have p2 : ((l1.dedup).insertionSort (· ≤ ·)).Perm l2.dedup := by
      rw [h]
      exact List.perm_insertionSort _ _
    exact p1.trans p2
  · intro h
    exact List.eq_of_perm_of_sorted
      ((List.perm_insertionSort _ _).trans
        (h.trans (List.perm_insertionSort _ _).symm))
      (List.sorted_insertionSort _ _) (List.sorted_insertionSort _ _)

/-- C3: for every dataset whose set of distinct home-team names differs
from the set of distinct away-team names, `solve_parameters` raises the
validation error before any optimization begins — for every minimizer,
initial vector and debug flag the result is the error and nothing else, so
the call never silently proceeds and produces no partial result. -/
theorem solver_rejects_mismatched_rosters (dataset : List MatchRow)
    (minimize : (List ℝ → Except String (Option ℝ)) → List ℝ → OptResult)
    (init_vals : List ℝ) (debug : Bool)
    (h : (dataset.map (fun m => m.homeTeam)).toFinset
        ≠ (dataset.map (fun m => m.awayTeam)).toFinset) :
    solve_parameters dataset minimize init_vals debug
      = Except.error "Somethings not right" := by
  have hne : uniqueSorted (dataset.map (fun m => m.homeTeam))
      ≠ uniqueSorted (dataset.map (fun m => m.awayTeam)) :=
    fun heq => h ((uniqueSorted_eq_iff _ _).mp heq)
  simp [solve_parameters, hne]

/-- Witness for C3: a one-match dataset whose home-name set is {A} and
whose away-name set is {B} is rejected for a concrete minimizer, initial
vector and debug flag. -/
theorem solver_rejects_mismatched_rosters_witness :
    (([{ homeTeam := "A", homeScore := 1, awayTeam := "B", awayScore := 2 }] :
        List MatchRow).map (fun m => m.homeTeam)).toFinset
      ≠ (([{ homeTeam := "A", homeScore := 1, awayTeam := "B", awayScore := 2 }] :
        List MatchRow).map (fun m => m.awayTeam)).toFinset ∧
    solve_parameters
      [{ homeTeam := "A", homeScore := 1, awayTeam := "B", awayScore := 2 }]
      (constMinimizer true 5 0) [] false
      = Except.error "Somethings not right" :=
  ⟨by decide,
    solver_rejects_mismatched_rosters _ _ _ _ (by decide)⟩

/-- C2 (code bug): the notebook markdown and the module-level
`dc_log_like` state the intended objective — the negated sum of the
per-match log-likelihood terms — but inside `estimate_parameters` the
rows come from `dataset.itertuples()` and are indexed with string keys,
which raises TypeError on the very first row; at this concrete failing
input (a one-match dataset with a two-team roster and a full-length
parameter vector) the objective evaluates to that TypeError and no sum is
ever computed. -/
theorem objective_type_error_on_first_row :
    estimate_parameters ["A", "B"]
      [{ homeTeam := "A", homeScore := 20, awayTeam := "B", awayScore := 15 }]
      [1, 1, -1, -1, 0, 1] = Except.error typeErrorMsg := by
  exact estimate_parameters_cons _ _ _ _ (by simp)

/-- Counterexample to C4: at the all-zero team parameters with rho = 1
and gamma = 0, the single 0-0 match is exactly a point where tau would be
1 - 1*1*1 = 0, yet the objective neither returns a large finite penalty
nor even reaches that logarithm: it raises TypeError at the string-indexed
row access before any correction factor or Poisson mass is examined. -/
theorem objective_not_penalized_at_invalid_point :
    rho_correction 0 0 (lambda_rate 0 0 0) (mu_rate 0 0) 1 = 0 ∧
    estimate_parameters ["A", "B"]
      [{ homeTeam := "A", homeScore := 0, awayTeam := "B", awayScore := 0 }]
      [0, 0, 0, 0, 1, 0] = Except.error typeErrorMsg :=
  ⟨by simp [rho_correction, lambda_rate, mu_rate],
    estimate_parameters_cons _ _ _ _ (by simp)⟩

/-- C4 (amended): the objective substitutes no penalty anywhere: for
every parameter vector (long enough to unpack rho and gamma) and every
non-empty dataset it raises TypeError from the string-indexed row access
before any correction factor or Poisson mass is evaluated — in
particular at points where tau is non-positive, such as the all-zero
parameters with rho = 1 on a 0-0 match, where tau equals 0. -/
theorem objective_raises_before_any_penalty :
    (∀ (teams : List String) (params : List ℝ) (m : MatchRow)
        (ms : List MatchRow), 2 ≤ params.length →
        estimate_parameters teams (m :: ms) params = Except.error typeErrorMsg) ∧
    rho_correction 0 0 (lambda_rate 0 0 0) (mu_rate 0 0) 1 = 0 := by
  constructor
  · intro teams params m ms h
    exact estimate_parameters_cons teams params m ms h
  · simp [rho_correction, lambda_rate, mu_rate]

/-- Witness for the amended C4: the general clause applied to a concrete
one-team roster, a one-match 1-2 dataset and a length-4 vector. -/
theorem objective_raises_before_any_penalty_witness :
    2 ≤ ([0, 0, 1, 0] : List ℝ).length ∧
    estimate_parameters ["C"]
      [{ homeTeam := "C", homeScore := 1, awayTeam := "C", awayScore := 2 }]
      [0, 0, 1, 0] = Except.error typeErrorMsg :=
  ⟨by simp,
    objective_raises_before_any_penalty.1 ["C"] [0, 0, 1, 0] _ [] (by simp)⟩

/-- Counterexample to C5: for a 2-team roster the parameter vector has
length 2*2 + 2 = 6, and the vector [5, 5, 5, 5, 0, 0] satisfies the
equality constraint the source actually imposes on the solution
(sum of the first 20 entries minus 20 equals 0; the slice takes the whole
6-vector), yet its attack block sums to 10, not to the roster size 2:
satisfying the enforced constraint does not give the claimed attack
normalization when the roster does not have exactly 20 teams. -/
theorem constraint_satisfied_without_attack_normalization :
    default_constraint [5, 5, 5, 5, 0, 0] = 0 ∧
    ([5, 5, 5, 5, 0, 0] : List ℝ).length = 2 * 2 + 2 ∧
    attack_sum 2 [5, 5, 5, 5, 0, 0] ≠ 2 := by
  refine ⟨?_, by simp, ?_⟩
  · have h : default_constraint [5, 5, 5, 5, 0, 0]
        = ([5, 5, 5, 5, 0, 0] : List ℝ).sum - 20 := rfl
    rw [h]
    norm_num [List.sum_cons, List.sum_nil]
  · have h : attack_sum 2 [5, 5, 5, 5, 0, 0] = ([5, 5] : List ℝ).sum := rfl
    rw [h]
    norm_num [List.sum_cons, List.sum_nil]

/-- C5 (amended): the equality constraint `solve_parameters` hands to the
minimizer fixes the sum of the first 20 entries of the parameter vector at
20, with the bound 20 hardcoded; this coincides with the claimed
normalization (sum of the n attack parameters equals n, with n taken from
the roster) exactly for a 20-team roster, whose attack block is precisely
those first 20 entries. -/
theorem constraint_is_hardcoded_twenty (x : List ℝ) :
    default_constraint x = 0 ↔ attack_sum 20 x = 20 := by
  unfold default_constraint attack_sum
  constructor <;> intro h <;> linarith

/-- Counterexample to C6: on a valid (equal-roster) one-team dataset,
with a minimizer reporting non-convergence after 100 iterations, the
non-debug call returns no mapping and no convergence metadata at all: it
fails with the TypeError raised inside the first objective evaluation. -/
theorem solver_nondebug_type_error_not_mapping :
    solve_parameters (oneTeamDataset 20 15) (constMinimizer false 100 37)
      [1, 2, 3, 4] false = Except.error typeErrorMsg := rfl

/-- C6 (amended): the non-debug packaging builds only the name-keyed
mapping (the names attack_<team>, defence_<team>, rho, home_adv zipped
with the optimizer vector) and carries no convergence metadata, whatever
success flag or iteration count the minimizer reports — but that
packaging is reached only when the objective evaluation at the initial
vector returns, which for this source means only the empty dataset; on
every non-empty valid dataset the call instead fails with the TypeError
from the first objective evaluation. -/
theorem solver_mapping_only_when_objective_returns :
    (∀ (minimize : (List ℝ → Except String (Option ℝ)) → List ℝ → OptResult)
        (iv : List ℝ), 2 ≤ iv.length →
        solve_parameters [] minimize iv false
          = Except.ok (SolveReturn.paramMap
              ((result_names []).zip
                (minimize (estimate_parameters [] []) iv).x))) ∧
    (∀ (m : MatchRow) (ms : List MatchRow)
        (minimize : (List ℝ → Except String (Option ℝ)) → List ℝ → OptResult)
        (iv : List ℝ) (debug : Bool), 2 ≤ iv.length →
        ((m :: ms).map (fun r => r.homeTeam)).toFinset
          = ((m :: ms).map (fun r => r.awayTeam)).toFinset →
        solve_parameters (m :: ms) minimize iv debug
          = Except.error typeErrorMsg) := by
  constructor
  · intro minimize iv hlen
    simp only [solve_parameters, List.map_nil, uniqueSorted_nil]
    rw [if_neg (not_not_intro rfl), estimate_parameters_nil [] iv hlen]
    rfl
  · intro m ms minimize iv debug hlen h
    have heq : uniqueSorted ((m :: ms).map (fun r => r.homeTeam))
        = uniqueSorted ((m :: ms).map (fun r => r.awayTeam)) :=
      (uniqueSorted_eq_iff _ _).mpr h
    simp only [solve_parameters]
    rw [if_neg (not_not_intro heq), estimate_parameters_cons _ _ _ _ hlen]

/-- Witness for the amended C6: the non-empty clause applied to the valid
one-team 7-9 dataset with a non-converging minimizer and the debug flag
set, and the empty clause applied to the same minimizer. -/
theorem solver_mapping_only_when_objective_returns_witness :
    2 ≤ ([1, 2, 3, 4] : List ℝ).length ∧
    ((oneTeamDataset 7 9).map (fun r => r.homeTeam)).toFinset
      = ((oneTeamDataset 7 9).map (fun r => r.awayTeam)).toFinset ∧
    solve_parameters (oneTeamDataset 7 9) (constMinimizer false 100 37)
      [1, 2, 3, 4] true = Except.error typeErrorMsg :=
  ⟨by simp, by decide,
    solver_mapping_only_when_objective_returns.2 _ [] (constMinimizer false 100 37)
      [1, 2, 3, 4] true (by simp) (by decide)⟩

/-- Counterexample to C8: a dataset containing a negative home score, but
with equal home and away name sets, is not rejected by validation: the
call passes the roster check and proceeds into the optimization stage,
where it fails with the TypeError of the objective row access — a
different error from the roster validation message, raised after, not
before, optimization begins. -/
theorem solver_negative_scores_pass_validation :
    ({ homeTeam := "A", homeScore := -1, awayTeam := "A", awayScore := 2 } :
        MatchRow).homeScore < 0 ∧
    solve_parameters (oneTeamDataset (-1) 2) (constMinimizer true 3 0)
      [1, 2, 3, 4] false = Except.error typeErrorMsg ∧
    typeErrorMsg ≠ "Somethings not right" :=
  ⟨by decide, rfl, by decide⟩

/-- C8 (amended): the solver performs no score validation: a one-team
dataset with arbitrary — in particular negative — scores passes the
roster check for every minimizer, initial vector (long enough to unpack)
and debug flag, and the call then fails with the TypeError every
non-empty dataset triggers in the objective row access, which is not the
roster validation error and is raised from within the optimization stage
rather than before it. -/
theorem solver_no_score_validation (hs as : Int)
    (minimize : (List ℝ → Except String (Option ℝ)) → List ℝ → OptResult)
    (iv : List ℝ) (debug : Bool) (hlen : 2 ≤ iv.length) :
    solve_parameters (oneTeamDataset hs as) minimize iv debug
      = Except.error typeErrorMsg ∧
    typeErrorMsg ≠ "Somethings not right" := by
  constructor
  · simp only [solve_parameters, oneTeamDataset, List.map_cons, List.map_nil]
    rw [if_neg (not_not_intro rfl), estimate_parameters_cons _ _ _ _ hlen]
  · decide

/-- Witness for the amended C8 at scores -3 and 5, a concrete minimizer,
a length-4 initial vector and the debug flag set. -/
theorem solver_no_score_validation_witness :
    ((-3 : Int) < 0) ∧ 2 ≤ ([1, 2, 3, 4] : List ℝ).length ∧
    (solve_parameters (oneTeamDataset (-3) 5) (constMinimizer true 3 0)
        [1, 2, 3, 4] true = Except.error typeErrorMsg ∧
      typeErrorMsg ≠ "Somethings not right") :=
  ⟨by decide, by simp,
    solver_no_score_validation (-3) 5 (constMinimizer true 3 0)
      [1, 2, 3, 4] true (by simp)⟩

/-- Counterexample to C10: on a valid one-team dataset the debug = true
call does not return the raw optimizer result (nor anything else): it
fails with the TypeError raised inside the first objective evaluation,
before the minimizer could produce a result to return. -/
theorem solver_debug_type_error_not_raw_result :
    solve_parameters (oneTeamDataset 7 9) (constMinimizer true 4 11)
      [1, 2, 3, 4] true = Except.error typeErrorMsg := rfl

/-- C10 (amended): the debug flag selects between the two documented
output shapes only when the objective evaluation at the initial vector
returns — with this source, only on the empty dataset, where debug = true
yields the raw optimizer result and debug = false the name-keyed
mapping; on every non-empty valid dataset the call raises the TypeError
from the objective instead, so neither documented return ever occurs. -/
theorem solver_debug_flag_selects_output_only_on_empty :
    (∀ (minimize : (List ℝ → Except String (Option ℝ)) → List ℝ → OptResult)
        (iv : List ℝ), 2 ≤ iv.length →
        solve_parameters [] minimize iv true
          = Except.ok (SolveReturn.debugOut
              (minimize (estimate_parameters [] []) iv)) ∧
        solve_parameters [] minimize iv false
          = Except.ok (SolveReturn.paramMap
              ((result_names []).zip
                (minimize (estimate_parameters [] []) iv).x))) ∧
    (∀ (m : MatchRow) (ms : List MatchRow)
        (minimize : (List ℝ → Except String (Option ℝ)) → List ℝ → OptResult)
        (iv : List ℝ) (debug : Bool) (r : SolveReturn), 2 ≤ iv.length →
        ((m :: ms).map (fun x => x.homeTeam)).toFinset
          = ((m :: ms).map (fun x => x.awayTeam)).toFinset →
        solve_parameters (m :: ms) minimize iv debug ≠ Except.ok r) := by
  constructor
  · intro minimize iv hlen
    constructor
    · simp only [solve_parameters, List.map_nil, uniqueSorted_nil]
      rw [if_neg (not_not_intro rfl), estimate_parameters_nil [] iv hlen]
      rfl
    · simp only [solve_parameters, List.map_nil, uniqueSorted_nil]
      rw [if_neg (not_not_intro rfl), estimate_parameters_nil [] iv hlen]
      rfl
  · intro m ms minimize iv debug r hlen h
    have heq : uniqueSorted ((m :: ms).map (fun x => x.homeTeam))
        = uniqueSorted ((m :: ms).map (fun x => x.awayTeam)) :=
      (uniqueSorted_eq_iff _ _).mpr h
    simp only [solve_parameters]
    rw [if_neg (not_not_intro heq), estimate_parameters_cons _ _ _ _ hlen]
    exact fun hcontra => Except.noConfusion hcontra

/-- Witness for the amended C10: the empty-dataset clause at a concrete
minimizer and vector gives both documented returns, and the non-empty
clause at the valid one-team 7-9 dataset excludes a concrete ok result. -/
theorem solver_debug_flag_selects_output_only_on_empty_witness :
    2 ≤ ([1, 2, 3, 4] : List ℝ).length ∧
    (solve_parameters [] (constMinimizer true 4 11) [1, 2, 3, 4] true
        = Except.ok (SolveReturn.debugOut
            (constMinimizer true 4 11 (estimate_parameters [] []) [1, 2, 3, 4])) ∧
      solve_parameters [] (constMinimizer true 4 11) [1, 2, 3, 4] false
        = Except.ok (SolveReturn.paramMap
            ((result_names []).zip
              (constMinimizer true 4 11 (estimate_parameters [] [])
                [1, 2, 3, 4]).x))) ∧
    ((oneTeamDataset 7 9).map (fun x => x.homeTeam)).toFinset
      = ((oneTeamDataset 7 9).map (fun x => x.awayTeam)).toFinset ∧
    solve_parameters (oneTeamDataset 7 9) (constMinimizer true 4 11)
      [1, 2, 3, 4] false ≠ Except.ok (SolveReturn.paramMap []) :=
  ⟨by simp,
    solver_debug_flag_selects_output_only_on_empty.1
      (constMinimizer true 4 11) [1, 2, 3, 4] (by simp),
    by decide,
    solver_debug_flag_selects_output_only_on_empty.2 _ []
      (constMinimizer true 4 11) [1, 2, 3, 4] false
      (SolveReturn.paramMap []) (by simp) (by decide)⟩
